import Mathlib

/-!
Verification of the WinsWereld inventory web client (TypeScript sources under
src/) against its natural-language specification. Each section embeds one
component of the program as executable Lean definitions translated directly
from the source, followed by theorems settling the frozen claims.
-/

set_option maxRecDepth 4000

/-! ## A small model of the JavaScript values used by the program

The form state and the API error objects hold JavaScript values: strings,
numbers (IEEE doubles, of which the program only ever inspects NaN, the two
infinities and ordinary finite values, modelled as rationals), `undefined`
and `null`. -/

/-- A JavaScript number as far as this program observes it: NaN, the two
infinities, or a finite value (modelled as a rational; the program never
relies on rounding of finite doubles). -/
inductive JsNum
  | nan
  | posInf
  | negInf
  | fin (q : ℚ)
deriving DecidableEq

/-- A JavaScript value of the kinds stored in the form state. -/
inductive JsVal
  | str (s : String)
  | num (n : JsNum)
  | undefined
  | null
deriving DecidableEq

/-- JavaScript `isNaN` on an already-numeric value. -/
def jsIsNaN : JsNum → Bool
  | .nan => true
  | .posInf => false
  | .negInf => false
  | .fin _ => false

/-- Whether a JavaScript number is finite (what `Number.isFinite` would test;
the source never tests this, it is needed to state the spec's wording). -/
def jsNumFinite : JsNum → Bool
  | .fin _ => true
  | _ => false

/-- JavaScript `n > 0` on numbers: false for NaN, true for `Infinity`. -/
def jsNumGtZero : JsNum → Bool
  | .nan => false
  | .posInf => true
  | .negInf => false
  | .fin q => decide (0 < q)

/-- JavaScript `===` on two numbers: NaN compares unequal to everything,
including itself. -/
def jsNumEq : JsNum → JsNum → Bool
  | .nan, _ => false
  | _, .nan => false
  | .posInf, .posInf => true
  | .posInf, .negInf => false
  | .posInf, .fin _ => false
  | .negInf, .posInf => false
  | .negInf, .negInf => true
  | .negInf, .fin _ => false
  | .fin _, .posInf => false
  | .fin _, .negInf => false
  | .fin a, .fin b => decide (a = b)

/-- JavaScript strict equality `===` on the modelled values: values of
different kinds are unequal, numbers compare by `jsNumEq`. -/
def jsStrictEq : JsVal → JsVal → Bool
  | .str a, .str b => decide (a = b)
  | .num a, .num b => jsNumEq a b
  | .undefined, .undefined => true
  | .null, .null => true
  | _, _ => false

/-- JavaScript `Number()` on a string, for the string shapes arising in this
program: the empty string converts to 0, integer literals to their value,
anything unparsed here conservatively to NaN. (Numeric form fields only ever
hold the empty string or what the number input produced.) -/
def jsStringToNumber (s : String) : JsNum :=
  if s = "" then .fin 0
  else
    match s.toInt? with
    | some n => .fin n
    | none => .nan

/-- JavaScript `Number()` coercion. -/
def jsToNumber : JsVal → JsNum
  | .num n => n
  | .str s => jsStringToNumber s
  | .undefined => .nan
  | .null => .fin 0

/-- Rendering of a JavaScript number by `String()`; exact for the values the
program can feed it (integers and the special values). -/
def jsNumToString : JsNum → String
  | .nan => "NaN"
  | .posInf => "Infinity"
  | .negInf => "-Infinity"
  | .fin q => if q.den = 1 then toString q.num else toString q

/-- JavaScript `String()` coercion. -/
def jsToString : JsVal → String
  | .str s => s
  | .num n => jsNumToString n
  | .undefined => "undefined"
  | .null => "null"

/-- JavaScript truthiness of a value. -/
def jsTruthy : JsVal → Bool
  | .str s => decide (s ≠ "")
  | .num .nan => false
  | .num (.fin q) => decide (q ≠ 0)
  | .num .posInf => true
  | .num .negInf => true
  | .undefined => false
  | .null => false

/-- JavaScript `String.prototype.includes` for a nonempty pattern: the
pattern occurs somewhere in the string. -/
def jsIncludes (s pat : String) : Bool :=
  decide (2 ≤ (s.splitOn pat).length)

/-! ## HTTP access layer (src/api.ts)

`api.ts` builds one axios instance with a 5-second timeout and attaches a
response interceptor implementing bounded retry (lines 50-89). The model
below embeds the interceptor's rejected handler and the loop it creates by
re-issuing `api(config)`. -/

/-- Retry configuration from src/api.ts lines 33-35. -/
def MAX_RETRIES : Nat := 3

/-- Fixed delay in milliseconds between attempts (src/api.ts line 35). -/
def RETRY_DELAY : Nat := 1000

/-- The part of an `AxiosError` the interceptor inspects: `error.code`
(`"ECONNABORTED"` marks a timeout), whether `error.response` is present, and
the human-readable `error.message`. -/
structure AxiosError where
  code : Option String
  hasResponse : Bool
  message : String
deriving DecidableEq

/-- Normalization of the final error message, src/api.ts lines 79-84:
a timeout and a response-less network failure each get a fixed message;
every other error keeps its message. -/
def normalizeMessage (e : AxiosError) : String :=
  if e.code = some "ECONNABORTED" then
    "Request timed out. Please check if the server is running."
  else if e.hasResponse = false then
    "Network error. Please check your connection and if the server is running."
  else e.message

/-- What one invocation of the response interceptor's rejected handler does:
either reject with an error, or wait `delayMs` and re-issue the request with
the new retry count. -/
inductive InterceptorResult
  | reject (e : AxiosError)
  | retryAfter (delayMs : Nat) (newRetryCount : Nat)
deriving DecidableEq

/-- The rejected handler of the response interceptor, src/api.ts lines
55-88. Its second argument is the request config: `none` when
`error.config` is absent, otherwise the (possibly still unset) `retryCount`
stored on the config. -/
def onResponseError (e : AxiosError) (config : Option (Option Nat)) : InterceptorResult :=
  match config with
  | none => .reject e
  | some storedCount =>
    let retryCount := storedCount.getD 0
    if retryCount < MAX_RETRIES then
      .retryAfter RETRY_DELAY (retryCount + 1)
    else
      .reject { e with message := normalizeMessage e }

/-- Outcome of one underlying network attempt, as seen by the interceptor:
a successful response (carrying its status) or an axios error. -/
inductive AttemptResult
  | ok (status : Nat)
  | err (e : AxiosError)
deriving DecidableEq

/-- The observable result of one logical operation through the layer: what
the caller receives, how many underlying attempts ran, and the total time
spent waiting between attempts. -/
structure RunResult where
  outcome : Except AxiosError Nat
  attemptsMade : Nat
  totalDelayMs : Nat

/-- Execution of a request through the interceptor loop. `attempts i` is the
result of the i-th underlying attempt; `fuel` bounds the recursion (the
interceptor itself stops at `MAX_RETRIES`, so `fuel = MAX_RETRIES` at the
top level makes the fuel-exhausted branch unreachable); `i` is both the next
attempt index and the `retryCount` stored on the config when it fails. -/
def runFrom (attempts : Nat → AttemptResult) : Nat → Nat → Nat → RunResult
  | 0, i, delayAcc =>
    match attempts i with
    | .ok v => ⟨.ok v, i + 1, delayAcc⟩
    | .err e =>
      match onResponseError e (some (some i)) with
      | .reject e2 => ⟨.error e2, i + 1, delayAcc⟩
      | .retryAfter _d _rc => ⟨.error e, i + 1, delayAcc⟩
  | fuel + 1, i, delayAcc =>
    match attempts i with
    | .ok v => ⟨.ok v, i + 1, delayAcc⟩
    | .err e =>
      match onResponseError e (some (some i)) with
      | .reject e2 => ⟨.error e2, i + 1, delayAcc⟩
      | .retryAfter d rc => runFrom attempts fuel rc (delayAcc + d)

/-- A logical operation: first attempt with no retry count on the config,
then the interceptor drives the retries. -/
def runRequest (attempts : Nat → AttemptResult) : RunResult :=
  runFrom attempts MAX_RETRIES 0 0

/-- HTTP methods used by the exported operations. -/
inductive HttpMethod
  | get
  | post
  | put
  | delete
deriving DecidableEq

/-- A request against the shared axios instance: method plus the path
relative to the base URL. -/
structure ApiRequest where
  method : HttpMethod
  url : String
deriving DecidableEq

/-- `getAllItems` (src/api.ts lines 92-93). -/
def getAllItemsReq : ApiRequest := ⟨.get, ""⟩

/-- `getItemByBarcode` (src/api.ts lines 96-97). -/
def getItemByBarcodeReq (barcode : String) : ApiRequest := ⟨.get, "/" ++ barcode⟩

/-- `createItem` (src/api.ts lines 100-101). -/
def createItemReq : ApiRequest := ⟨.post, ""⟩

/-- `updateItem` (src/api.ts lines 104-105). -/
def updateItemReq (id : String) : ApiRequest := ⟨.put, "/" ++ id⟩

/-- `deleteItem` (src/api.ts lines 108-109). -/
def deleteItemReq (id : String) : ApiRequest := ⟨.delete, "/" ++ id⟩

/-- Every exported operation goes through the same shared instance, hence
through the same interceptor: the retry behavior does not depend on which
operation is being performed. -/
def performRequest (_req : ApiRequest) (attempts : Nat → AttemptResult) : RunResult :=
  runRequest attempts

/-- With a config carrying retry count below the maximum, the interceptor
always retries after the fixed delay, whatever the error was. -/
theorem onResponseError_retry (e : AxiosError) (rc : Nat) (h : rc < MAX_RETRIES) :
    onResponseError e (some (some rc)) = .retryAfter RETRY_DELAY (rc + 1) := by
  simp [onResponseError, h]

/-- With the retry budget exhausted, the interceptor rejects with the
normalized message. -/
theorem onResponseError_reject (e : AxiosError) (rc : Nat) (h : ¬ rc < MAX_RETRIES) :
    onResponseError e (some (some rc)) = .reject { e with message := normalizeMessage e } := by
  simp [onResponseError, h]

/-- Inversion: a retry decision on a config with count `i` always waits the
fixed delay, moves to count `i + 1`, and only happens below the maximum. -/
theorem onResponseError_retry_inv (e : AxiosError) (i dd rc : Nat)
    (h : onResponseError e (some (some i)) = .retryAfter dd rc) :
    dd = RETRY_DELAY ∧ rc = i + 1 ∧ i < MAX_RETRIES := by
  by_cases hlt : i < MAX_RETRIES
  · rw [onResponseError_retry e i hlt] at h
    cases h
    exact ⟨rfl, rfl, hlt⟩
  · rw [onResponseError_reject e i hlt] at h
    cases h

/-- One-step unfolding of `runFrom` when the current attempt succeeds. -/
theorem runFrom_ok (attempts : Nat → AttemptResult) (fuel i d v : Nat)
    (h : attempts i = .ok v) :
    runFrom attempts fuel i d = ⟨.ok v, i + 1, d⟩ := by
  cases fuel <;> simp only [runFrom, h]

/-- One-step unfolding of `runFrom` when the current attempt fails and the
interceptor rejects. -/
theorem runFrom_reject (attempts : Nat → AttemptResult) (fuel i d : Nat)
    (e e2 : AxiosError) (h : attempts i = .err e)
    (h2 : onResponseError e (some (some i)) = .reject e2) :
    runFrom attempts fuel i d = ⟨.error e2, i + 1, d⟩ := by
  cases fuel <;> simp only [runFrom, h, h2]

/-- One-step unfolding of `runFrom` when the current attempt fails and the
interceptor retries. -/
theorem runFrom_retry (attempts : Nat → AttemptResult) (f i d : Nat)
    (e : AxiosError) (dd rc : Nat) (h : attempts i = .err e)
    (h2 : onResponseError e (some (some i)) = .retryAfter dd rc) :
    runFrom attempts (f + 1) i d = runFrom attempts f rc (d + dd) := by
  simp only [runFrom, h, h2]

/-- Accounting invariant of the retry loop: the run makes `k + 1` attempts
for some `k ≤ fuel`, with total inter-attempt delay `RETRY_DELAY * k`. -/
theorem runFrom_accounting (attempts : Nat → AttemptResult) :
    ∀ fuel i d, ∃ k, k ≤ fuel ∧
      (runFrom attempts fuel i d).attemptsMade = i + 1 + k ∧
      (runFrom attempts fuel i d).totalDelayMs = d + RETRY_DELAY * k := by
  intro fuel
  induction fuel with
  | zero =>
    intro i d
    refine ⟨0, Nat.le_refl 0, ?_⟩
    cases h : attempts i with
    | ok v => rw [runFrom_ok attempts 0 i d v h]; simp
    | err e =>
      cases h2 : onResponseError e (some (some i)) with
      | reject e2 => rw [runFrom_reject attempts 0 i d e e2 h h2]; simp
      | retryAfter dd rc =>
        rw [show runFrom attempts 0 i d = ⟨.error e, i + 1, d⟩ by
          simp only [runFrom, h, h2]]
        simp
  | succ f ih =>
    intro i d
    cases h : attempts i with
    | ok v =>
      exact ⟨0, Nat.zero_le _, by rw [runFrom_ok attempts (f + 1) i d v h]; simp⟩
    | err e =>
      cases h2 : onResponseError e (some (some i)) with
      | reject e2 =>
        exact ⟨0, Nat.zero_le _, by rw [runFrom_reject attempts (f + 1) i d e e2 h h2]; simp⟩
      | retryAfter dd rc =>
        obtain ⟨hdd, hrc, -⟩ := onResponseError_retry_inv e i dd rc h2
        subst hdd; subst hrc
        obtain ⟨k, hk, h3, h4⟩ := ih (i + 1) (d + RETRY_DELAY)
        rw [runFrom_retry attempts f i d e RETRY_DELAY (i + 1) h h2]
        refine ⟨k + 1, by omega, ?_, ?_⟩
        · rw [h3]; omega
        · rw [h4]; ring

/-- If the first success is at attempt `j ≤ MAX_RETRIES` (all earlier
attempts failed), the run returns that success after `j + 1` attempts with
`j` full delays, for any sufficient fuel. -/
theorem runFrom_firstSuccess (attempts : Nat → AttemptResult) (j v : Nat)
    (hj : attempts j = .ok v) (hk : ∀ k, k < j → ∃ e, attempts k = .err e)
    (hjM : j ≤ MAX_RETRIES) :
    ∀ fuel i d, i ≤ j → j ≤ i + fuel →
      runFrom attempts fuel i d = ⟨.ok v, j + 1, d + RETRY_DELAY * (j - i)⟩ := by
  intro fuel
  induction fuel with
  | zero =>
    intro i d hij hji
    have hij2 : i = j := by omega
    subst hij2
    rw [runFrom_ok attempts 0 i d v hj]
    simp
  | succ f ih =>
    intro i d hij hji
    rcases Nat.eq_or_lt_of_le hij with heq | hlt
    · subst heq
      rw [runFrom_ok attempts (f + 1) i d v hj]
      simp
    · obtain ⟨e, he⟩ := hk i hlt
      have hiM : i < MAX_RETRIES := by omega
      rw [runFrom_retry attempts f i d e RETRY_DELAY (i + 1) he
        (onResponseError_retry e i hiM)]
      rw [ih (i + 1) (d + RETRY_DELAY) hlt (by omega)]
      have harith : d + RETRY_DELAY + RETRY_DELAY * (j - (i + 1))
          = d + RETRY_DELAY * (j - i) := by
        have h1000 : RETRY_DELAY = 1000 := rfl
        rw [h1000]
        omega
      rw [harith]

/-- If all four attempts fail, the run rejects once with the last error,
message normalized, after exactly four attempts and three 1-second delays. -/
theorem runFrom_allFail (attempts : Nat → AttemptResult) (es : Nat → AxiosError)
    (hf : ∀ k, k < MAX_RETRIES + 1 → attempts k = .err (es k)) :
    runRequest attempts =
      ⟨.error { es 3 with message := normalizeMessage (es 3) }, 4, 3000⟩ := by
  have h0 := hf 0 (by decide)
  have h1 := hf 1 (by decide)
  have h2 := hf 2 (by decide)
  have h3 := hf 3 (by decide)
  show runFrom attempts 3 0 0 = _
  rw [runFrom_retry attempts 2 0 0 (es 0) RETRY_DELAY 1 h0
    (onResponseError_retry (es 0) 0 (by decide))]
  rw [runFrom_retry attempts 1 1 (0 + RETRY_DELAY) (es 1) RETRY_DELAY 2 h1
    (onResponseError_retry (es 1) 1 (by decide))]
  rw [runFrom_retry attempts 0 2 (0 + RETRY_DELAY + RETRY_DELAY) (es 2) RETRY_DELAY 3 h2
    (onResponseError_retry (es 2) 2 (by decide))]
  rw [runFrom_reject attempts 0 3 (0 + RETRY_DELAY + RETRY_DELAY + RETRY_DELAY) (es 3) _ h3
    (onResponseError_reject (es 3) 3 (by decide))]
  rfl

/-- A sample error used by concrete instantiations below. -/
def demoConnRefused : AxiosError := ⟨some "ECONNREFUSED", false, "connect ECONNREFUSED 127.0.0.1:3000"⟩

/-- Attempts where the first three fail and the fourth succeeds. -/
def demoAttempts : Nat → AttemptResult :=
  fun i => if i < 3 then .err demoConnRefused else .ok 200

/-- Claim C1: for every HTTP operation of the access layer, each failing
underlying attempt is retried up to 3 additional times with a fixed
1-second delay between attempts (at most 4 total attempts); the retry
decision is the same for every failure cause; and if any attempt among the
first 4 succeeds, the operation returns that successful result and surfaces
no error. -/
theorem C1_http_retry_policy (req : ApiRequest) (attempts : Nat → AttemptResult) :
    (performRequest req attempts).attemptsMade ≤ MAX_RETRIES + 1 ∧
    (performRequest req attempts).totalDelayMs =
      RETRY_DELAY * ((performRequest req attempts).attemptsMade - 1) ∧
    (∀ e e2 rc, rc < MAX_RETRIES →
      onResponseError e (some (some rc)) = InterceptorResult.retryAfter RETRY_DELAY (rc + 1) ∧
      onResponseError e (some (some rc)) = onResponseError e2 (some (some rc))) ∧
    (∀ j v, j ≤ MAX_RETRIES → attempts j = AttemptResult.ok v →
      (∀ k, k < j → ∃ e, attempts k = AttemptResult.err e) →
      (performRequest req attempts).outcome = Except.ok v ∧
      (performRequest req attempts).attemptsMade = j + 1) := by
  obtain ⟨k, hk, ha, hd⟩ := runFrom_accounting attempts MAX_RETRIES 0 0
  refine ⟨?_, ?_, ?_, ?_⟩
  · show (runFrom attempts MAX_RETRIES 0 0).attemptsMade ≤ MAX_RETRIES + 1
    omega
  · show (runFrom attempts MAX_RETRIES 0 0).totalDelayMs
      = RETRY_DELAY * ((runFrom attempts MAX_RETRIES 0 0).attemptsMade - 1)
    rw [hd, ha]
    have hsimp : 0 + 1 + k - 1 = k := by omega
    rw [hsimp]
    simp
  · intro e e2 rc hrc
    rw [onResponseError_retry e rc hrc, onResponseError_retry e2 rc hrc]
    exact ⟨rfl, rfl⟩
  · intro j v hjM hj hfail
    have := runFrom_firstSuccess attempts j v hj hfail hjM MAX_RETRIES 0 0
      (Nat.zero_le j) (by omega)
    show (runFrom attempts MAX_RETRIES 0 0).outcome = Except.ok v ∧
      (runFrom attempts MAX_RETRIES 0 0).attemptsMade = j + 1
    rw [this]
    exact ⟨rfl, rfl⟩

/-- Witness for C1: with three connection-refused failures followed by a
success, the layer returns the success after 4 attempts and 3 seconds of
accumulated retry delay. -/
theorem C1_http_retry_policy_witness :
    (performRequest getAllItemsReq demoAttempts).outcome = Except.ok 200 ∧
    (performRequest getAllItemsReq demoAttempts).attemptsMade = 4 := by
  obtain ⟨-, -, -, hS⟩ := C1_http_retry_policy getAllItemsReq demoAttempts
  exact hS 3 200 (by decide) (by simp [demoAttempts])
    (fun k hk => ⟨demoConnRefused, by simp [demoAttempts, hk]⟩)

/-- Claim C2: when all 4 attempts fail, the layer surfaces exactly one
error, whose message is the distinct timed-out text when the final cause
was a timeout, the distinct connectivity text when no response was
received, and the underlying error text unchanged otherwise. -/
theorem C2_exhausted_error_normalized (req : ApiRequest)
    (attempts : Nat → AttemptResult) (es : Nat → AxiosError)
    (hfail : ∀ k, k < MAX_RETRIES + 1 → attempts k = AttemptResult.err (es k)) :
    (performRequest req attempts).outcome =
      Except.error { es 3 with message := normalizeMessage (es 3) } ∧
    (performRequest req attempts).attemptsMade = 4 ∧
    ((es 3).code = some "ECONNABORTED" →
      normalizeMessage (es 3) = "Request timed out. Please check if the server is running.") ∧
    ((es 3).code ≠ some "ECONNABORTED" → (es 3).hasResponse = false →
      normalizeMessage (es 3) =
        "Network error. Please check your connection and if the server is running.") ∧
    ((es 3).code ≠ some "ECONNABORTED" → (es 3).hasResponse = true →
      normalizeMessage (es 3) = (es 3).message) := by
  have hrun := runFrom_allFail attempts es hfail
  refine ⟨?_, ?_, ?_, ?_, ?_⟩
  · show (runRequest attempts).outcome = _
    rw [hrun]
  · show (runRequest attempts).attemptsMade = 4
    rw [hrun]
  · intro h
    simp [normalizeMessage, h]
  · intro h h2
    simp [normalizeMessage, h, h2]
  · intro h h2
    simp [normalizeMessage, h, h2]

/-- A timeout error as axios reports it. -/
def demoTimeout : AxiosError := ⟨some "ECONNABORTED", false, "timeout of 5000ms exceeded"⟩

/-- Attempts that always time out. -/
def demoTimeoutAttempts : Nat → AttemptResult := fun _ => .err demoTimeout

/-- Witness for C2: four timed-out attempts surface one error carrying the
distinct timed-out message. -/
theorem C2_exhausted_error_normalized_witness :
    (performRequest getAllItemsReq demoTimeoutAttempts).outcome =
      Except.error ⟨some "ECONNABORTED", false,
        "Request timed out. Please check if the server is running."⟩ ∧
    (performRequest getAllItemsReq demoTimeoutAttempts).attemptsMade = 4 := by
  obtain ⟨h1, h2, h3, -, -⟩ := C2_exhausted_error_normalized getAllItemsReq
    demoTimeoutAttempts (fun _ => demoTimeout) (fun k _ => rfl)
  refine ⟨?_, h2⟩
  rw [h1]
  rw [show normalizeMessage demoTimeout
    = "Request timed out. Please check if the server is running." from h3 rfl]
  rfl

/-- Claim C10: an error reaching the interceptor without a request config is
rejected to the caller immediately and unchanged: no retry, no delay, and
no message normalization. -/
theorem C10_no_config_immediate_reject (e : AxiosError) :
    onResponseError e none = InterceptorResult.reject e := by
  rfl

/-! ## Item form reconciler

The creation form (src/src/app/inventory/components/AddItemForm.tsx,
`handleSubmit`) and the edit form
(src/src/app/inventory/components/EditItemForm.tsx, `handleSubmit`) iterate
over the eight form fields and build the object sent to the server. A key
that is assigned `undefined` is still a present key of the object (the
explicit clear marker, counted by `Object.keys`), distinct from an absent
key. -/

/-- The eight fields of the form state, in the insertion order of the
`formData` object literal. -/
inductive FormField
  | barcode
  | name
  | description
  | category
  | quantity
  | price
  | expiryDate
  | photoURL
deriving DecidableEq, Fintype

/-- The two fields both reconcilers treat numerically
(the check is written as a key comparison in the source). -/
def FormField.isNumeric : FormField → Bool
  | .quantity => true
  | .price => true
  | _ => false

/-- All fields, in `Object.entries` iteration order. -/
def FormField.allFields : List FormField :=
  [.barcode, .name, .description, .category, .quantity, .price, .expiryDate, .photoURL]

/-- One slot of the object sent to the server: the key can be absent, be
present with the value `undefined` (the explicit clear marker), or carry a
value. -/
inductive Entry
  | absent
  | cleared
  | val (v : JsVal)
deriving DecidableEq

/-- The change handler shared by both forms (`handleChange`): numeric
fields store `undefined` for an emptied input and `Number(value)`
otherwise; every other field stores the raw input string. -/
def handleChange (k : FormField) (raw : String) : JsVal :=
  if k.isNumeric then
    (if raw = "" then .undefined else .num (jsStringToNumber raw))
  else .str raw

/-- Creation-mode treatment of one field, AddItemForm.tsx `handleSubmit`:
skip empty-string, `undefined` and `null` values; for `price` and
`quantity` include `Number(value)` only when it is not NaN and is strictly
positive; coerce every other kept value with `String()`. -/
def createEntry (k : FormField) (value : JsVal) : Entry :=
  if value = .str "" ∨ value = .undefined ∨ value = .null then .absent
  else if k.isNumeric then
    (let numValue := jsToNumber value
     if !jsIsNaN numValue && jsNumGtZero numValue then .val (.num numValue)
     else .absent)
  else .val (.str (jsToString value))

/-- The whole change-set built by the creation form. -/
def createChangeSet (form : FormField → JsVal) : FormField → Entry :=
  fun k => createEntry k (form k)

/-- Edit-mode treatment of one field, EditItemForm.tsx `handleSubmit`:
numeric fields get the clear marker on an empty string with a defined
original, are skipped when `undefined`, and otherwise send `Number(value)`
when it differs (by `!==`) from the original; every other field gets the
clear marker on an empty string with a defined original, and otherwise
sends the value (coerced by `String()` when truthy, `undefined` when not)
when it differs (by `!==`) from the original. -/
def editEntry (k : FormField) (originalValue value : JsVal) : Entry :=
  if k.isNumeric then
    if value = .str "" then
      (if originalValue ≠ .undefined then .cleared else .absent)
    else if value ≠ .undefined then
      (let numValue := jsToNumber value
       if !jsStrictEq (.num numValue) originalValue then .val (.num numValue)
       else .absent)
    else .absent
  else
    if value = .str "" then
      (if originalValue ≠ .undefined then .cleared else .absent)
    else if !jsStrictEq value originalValue then
      (if jsTruthy value then .val (.str (jsToString value)) else .cleared)
    else .absent

/-- The whole change-set built by the edit form from the original item and
the working copy. -/
def editChangeSet (orig work : FormField → JsVal) : FormField → Entry :=
  fun k => editEntry k (orig k) (work k)

/-- `Object.keys(dataToSend).length`: keys set to `undefined` (clear
markers) are present keys and are counted. -/
def changeSetKeyCount (cs : FormField → Entry) : Nat :=
  (FormField.allFields.filter (fun k => decide (cs k ≠ Entry.absent))).length

/-- Outcome of the edit form submission before any network call. -/
inductive EditOutcome
  | missingId
  | noChanges
  | submit (cs : FormField → Entry)

/-- Whether the outcome invokes the update operation. -/
def EditOutcome.isSubmit : EditOutcome → Bool
  | .submit _ => true
  | _ => false

/-- EditItemForm.tsx `handleSubmit`: reject a missing (or falsy empty) id,
build the change-set, report the no-changes validation failure when it has
no keys, and otherwise submit it to `updateItem`. -/
def editSubmit (id : Option String) (orig work : FormField → JsVal) : EditOutcome :=
  match id with
  | none => .missingId
  | some s =>
    if s = "" then .missingId
    else
      let cs := editChangeSet orig work
      if changeSetKeyCount cs = 0 then .noChanges
      else .submit cs

/-- Well-typedness of one numeric form slot: the form state declares
`quantity` and `price` as `number | undefined`, and `handleChange` only ever
stores a number or `undefined` there. -/
def isNumOrUndef : JsVal → Bool
  | .num _ => true
  | .undefined => true
  | _ => false

/-- The claim C3 example input: working copy with empty `name`, zero
`price`, `quantity` 5 (all other slots untouched). -/
def exampleCreateForm : FormField → JsVal
  | .name => .str ""
  | .price => .num (.fin 0)
  | .quantity => .num (.fin 5)
  | _ => .undefined

/-- A working copy whose `quantity` is the JavaScript number `Infinity`
(what `Number("1e999")` produces in the number input). -/
def infCreateForm : FormField → JsVal
  | .quantity => .num .posInf
  | .price => .undefined
  | _ => .str ""

/-- Counterexample to claim C3 as stated: a `quantity` of `Infinity` is not
empty-string, `undefined` or `null`, its coerced numeric value is not a
finite number, yet the creation reconciler includes it in the change-set
(the code tests only `!isNaN` and `> 0`, not finiteness), where the claim
requires the field to be omitted. -/
theorem C3_create_finite_counterexample :
    createChangeSet infCreateForm FormField.quantity = Entry.val (JsVal.num JsNum.posInf) ∧
    jsNumFinite JsNum.posInf = false ∧
    infCreateForm FormField.quantity ≠ JsVal.str "" ∧
    infCreateForm FormField.quantity ≠ JsVal.undefined ∧
    infCreateForm FormField.quantity ≠ JsVal.null := by
  decide

/-- Claim C3, amended: in creation mode every field whose value is
empty-string, `undefined` or `null` is omitted; the numeric fields
`quantity` and `price` are omitted unless their coerced numeric value is a
non-NaN number strictly greater than zero (positive infinity is therefore
included, not omitted), and are otherwise included as that number; every
other included field is coerced to string; and the input with empty name,
zero price and quantity 5 yields exactly the change-set containing
quantity 5. -/
theorem C3_create_reconciler_amended (form : FormField → JsVal) (k : FormField) :
    ((form k = JsVal.str "" ∨ form k = JsVal.undefined ∨ form k = JsVal.null) →
      createChangeSet form k = Entry.absent) ∧
    (k.isNumeric = true →
      (jsIsNaN (jsToNumber (form k)) = true ∨ jsNumGtZero (jsToNumber (form k)) = false) →
      createChangeSet form k = Entry.absent) ∧
    (k.isNumeric = true → jsIsNaN (jsToNumber (form k)) = false →
      jsNumGtZero (jsToNumber (form k)) = true →
      ¬(form k = JsVal.str "" ∨ form k = JsVal.undefined ∨ form k = JsVal.null) →
      createChangeSet form k = Entry.val (JsVal.num (jsToNumber (form k)))) ∧
    (k.isNumeric = false →
      ¬(form k = JsVal.str "" ∨ form k = JsVal.undefined ∨ form k = JsVal.null) →
      createChangeSet form k = Entry.val (JsVal.str (jsToString (form k)))) ∧
    (∀ k2, createChangeSet exampleCreateForm k2 =
      if k2 = FormField.quantity then Entry.val (JsVal.num (JsNum.fin 5)) else Entry.absent) := by
  refine ⟨?_, ?_, ?_, ?_, by decide⟩
  · intro h
    unfold createChangeSet createEntry
    rw [if_pos h]
  · intro hnum hbad
    unfold createChangeSet createEntry
    by_cases hempty : form k = JsVal.str "" ∨ form k = JsVal.undefined ∨ form k = JsVal.null
    · rw [if_pos hempty]
    · rw [if_neg hempty]
      rcases hbad with h | h <;> simp [hnum, h]
  · intro hnum hnan hgt hne
    unfold createChangeSet createEntry
    rw [if_neg hne]
    simp [hnum, hnan, hgt]
  · intro hnum hne
    unfold createChangeSet createEntry
    rw [if_neg hne]
    simp [hnum]

/-- Witness for the amended C3 at the example input: empty name omitted,
zero price omitted, quantity included as 5. -/
theorem C3_create_reconciler_amended_witness :
    createChangeSet exampleCreateForm FormField.name = Entry.absent ∧
    createChangeSet exampleCreateForm FormField.price = Entry.absent ∧
    createChangeSet exampleCreateForm FormField.quantity
      = Entry.val (JsVal.num (JsNum.fin 5)) := by
  refine ⟨?_, ?_, ?_⟩
  · exact (C3_create_reconciler_amended exampleCreateForm FormField.name).1 (by decide)
  · exact (C3_create_reconciler_amended exampleCreateForm FormField.price).2.1
      (by decide) (by decide)
  · have h := (C3_create_reconciler_amended exampleCreateForm FormField.quantity).2.2.1
      (by decide) (by decide) (by decide) (by decide)
    rw [h]
    rfl

/-- An original item whose `quantity` is 10 and whose `name` is "a"; the
remaining attributes are unset. -/
def c4Orig : FormField → JsVal
  | .quantity => .num (.fin 10)
  | .name => .str "a"
  | _ => .undefined

/-- A working copy of `c4Orig` where the user emptied the quantity input
(stored as `undefined` by `handleChange`) and renamed the item; untouched
string slots are initialized to the empty string by the form. -/
def c4Work : FormField → JsVal
  | .quantity => .undefined
  | .name => .str "b"
  | _ => .str ""

/-- Counterexample to claim C4 as stated: the working `quantity` is the
empty working value the change handler produces for an emptied numeric
input, the original `quantity` was defined, yet the edit reconciler omits
the field entirely instead of including the explicit clear marker. -/
theorem C4_numeric_clear_counterexample :
    c4Work FormField.quantity = handleChange FormField.quantity "" ∧
    c4Orig FormField.quantity ≠ JsVal.undefined ∧
    editChangeSet c4Orig c4Work FormField.quantity = Entry.absent ∧
    Entry.absent ≠ Entry.cleared := by
  decide

/-- The claim C4 example: original with price 10 and category "food". -/
def c4ExOrig : FormField → JsVal
  | .price => .num (.fin 10)
  | .category => .str "food"
  | _ => .undefined

/-- Working copy of `c4ExOrig` with the category cleared; untouched string
slots are initialized by the form to the empty string and the numeric
slots to the original numbers. -/
def c4ExWork : FormField → JsVal
  | .price => .num (.fin 10)
  | .category => .str ""
  | .quantity => .undefined
  | _ => .str ""

/-- Claim C4, amended: in edit mode a field whose working value is the
literal empty string is included with the explicit clear marker when the
original value was defined and omitted when the original was `undefined`;
but for the numeric fields `quantity` and `price` an emptied input is
stored as `undefined` by the change handler and is then always omitted,
never a clear marker, regardless of the original. The example (original
price 10 and category "food", working copy with category emptied) yields a
change-set containing exactly the clear marker for category. -/
theorem C4_edit_clear_amended (orig work : FormField → JsVal) (k : FormField) :
    (work k = JsVal.str "" → orig k ≠ JsVal.undefined →
      editChangeSet orig work k = Entry.cleared) ∧
    (work k = JsVal.str "" → orig k = JsVal.undefined →
      editChangeSet orig work k = Entry.absent) ∧
    (k.isNumeric = true → work k = JsVal.undefined →
      editChangeSet orig work k = Entry.absent) ∧
    (k.isNumeric = true → handleChange k "" = JsVal.undefined) ∧
    (∀ k2, editChangeSet c4ExOrig c4ExWork k2 =
      if k2 = FormField.category then Entry.cleared else Entry.absent) := by
  refine ⟨?_, ?_, ?_, ?_, by decide⟩
  · intro hw ho
    by_cases hb : k.isNumeric = true <;>
      simp [editChangeSet, editEntry, hw, ho, hb]
  · intro hw ho
    by_cases hb : k.isNumeric = true <;>
      simp [editChangeSet, editEntry, hw, ho, hb]
  · intro hb hw
    simp [editChangeSet, editEntry, hb, hw]
  · intro hb
    simp [handleChange, hb]

/-- Witness for the amended C4 on the claim example: the category slot gets
the clear marker, the quantity slot (emptied numeric input) is omitted. -/
theorem C4_edit_clear_amended_witness :
    editChangeSet c4ExOrig c4ExWork FormField.category = Entry.cleared ∧
    editChangeSet c4ExOrig c4ExWork FormField.quantity = Entry.absent := by
  refine ⟨?_, ?_⟩
  · exact (C4_edit_clear_amended c4ExOrig c4ExWork FormField.category).1
      (by decide) (by decide)
  · exact (C4_edit_clear_amended c4ExOrig c4ExWork FormField.quantity).2.2.1
      (by decide) (by decide)

/-- An original record whose `barcode` happens to be the empty string, with
its identical working copy (the form initializes `barcode` from the item,
so an untouched form reproduces it). -/
def c5Form : FormField → JsVal :=
  fun k => if k = FormField.barcode then .str "" else .undefined

/-- Counterexample to claim C5 as stated: with an original and working copy
that are identical (the same record), the edit reconciler does not report
the no-changes validation failure — the empty-string barcode matches the
clear-marker branch (empty working value, defined original), the change-set
is nonempty, and the update is submitted. -/
theorem C5_identical_submit_counterexample :
    (editSubmit (some "item-1") c5Form c5Form).isSubmit = true ∧
    EditOutcome.noChanges.isSubmit = false ∧
    editChangeSet c5Form c5Form FormField.barcode = Entry.cleared := by
  decide

/-- Claim C5, amended: in edit mode an unchanged field is omitted from the
change-set provided its value is not the empty string, not `null`, not NaN
(a value JavaScript strict-compares equal to itself), and, for the numeric
fields, is a number or `undefined` as the change handler guarantees;
unchanged numeric fields compare by numeric equality after coercion and
other fields by strict equality; when every slot of the change-set is
absent the reconciler reports the no-changes validation failure and the
update operation is not invoked; and identical original and working copies
yield that validation failure provided no field value is the empty string,
`null`, or NaN, with numeric fields well-typed. -/
theorem C5_no_changes_amended (id : String) (orig work : FormField → JsVal) :
    (∀ k, work k = orig k → work k ≠ JsVal.str "" → work k ≠ JsVal.null →
      jsStrictEq (work k) (work k) = true →
      (FormField.isNumeric k = true → isNumOrUndef (work k) = true) →
      editChangeSet orig work k = Entry.absent) ∧
    (∀ k, FormField.isNumeric k = true → work k ≠ JsVal.str "" → work k ≠ JsVal.undefined →
      jsStrictEq (JsVal.num (jsToNumber (work k))) (orig k) = true →
      editChangeSet orig work k = Entry.absent) ∧
    (∀ k, FormField.isNumeric k = false → work k ≠ JsVal.str "" →
      jsStrictEq (work k) (orig k) = true →
      editChangeSet orig work k = Entry.absent) ∧
    (id ≠ "" → (∀ k, editChangeSet orig work k = Entry.absent) →
      editSubmit (some id) orig work = EditOutcome.noChanges) ∧
    ((∀ k, work k = orig k) →
      (∀ k, orig k ≠ JsVal.str "" ∧ orig k ≠ JsVal.null ∧
        jsStrictEq (orig k) (orig k) = true ∧
        (FormField.isNumeric k = true → isNumOrUndef (orig k) = true)) →
      id ≠ "" → editSubmit (some id) orig work = EditOutcome.noChanges) := by
  have h1 : ∀ k, work k = orig k → work k ≠ JsVal.str "" → work k ≠ JsVal.null →
      jsStrictEq (work k) (work k) = true →
      (FormField.isNumeric k = true → isNumOrUndef (work k) = true) →
      editChangeSet orig work k = Entry.absent := by
    intro k heq hne hnn hself hty
    show editEntry k (orig k) (work k) = Entry.absent
    rw [heq.symm]
    by_cases hb : FormField.isNumeric k = true
    · have ht := hty hb
      cases hv : work k with
      | str s => rw [hv] at ht; simp [isNumOrUndef] at ht
      | null => exact absurd hv hnn
      | undefined => simp [editEntry, hb]
      | num n =>
        rw [hv] at hself
        simp [editEntry, hb, jsToNumber, hself]
    · cases hv : work k with
      | str s =>
        have hs : ¬ s = "" := fun h => hne (by rw [hv, h])
        rw [hv] at hself
        simp [editEntry, hb, hself, hs]
      | num n =>
        rw [hv] at hself
        simp [editEntry, hb, hself]
      | undefined => simp [editEntry, hb, jsStrictEq]
      | null => exact absurd hv hnn
  have h4 : id ≠ "" → (∀ k, editChangeSet orig work k = Entry.absent) →
      editSubmit (some id) orig work = EditOutcome.noChanges := by
    intro hid hall
    have hcnt : changeSetKeyCount (editChangeSet orig work) = 0 := by
      unfold changeSetKeyCount
      rw [List.filter_eq_nil_iff.mpr ?_]
      · rfl
      · intro a _
        simp [hall a]
    simp [editSubmit, hid, hcnt]
  refine ⟨h1, ?_, ?_, h4, ?_⟩
  · intro k hb hne hnu hcmp
    show editEntry k (orig k) (work k) = Entry.absent
    simp [editEntry, hb, hne, hnu, hcmp]
  · intro k hb hne hcmp
    show editEntry k (orig k) (work k) = Entry.absent
    simp [editEntry, hb, hne, hcmp]
  · intro hident hgood hid
    refine h4 hid ?_
    intro k
    obtain ⟨hne, hnn, hself, hty⟩ := hgood k
    exact h1 k (hident k) (by rw [hident k]; exact hne) (by rw [hident k]; exact hnn)
      (by rw [hident k]; exact hself) (fun hb => by rw [hident k]; exact hty hb)

/-- Witness for the amended C5: an untouched record with no set attributes
produces the no-changes validation failure, so the update is not invoked. -/
theorem C5_no_changes_amended_witness :
    editSubmit (some "item-1") (fun _ => JsVal.undefined) (fun _ => JsVal.undefined)
      = EditOutcome.noChanges := by
  have h := C5_no_changes_amended "item-1" (fun _ => JsVal.undefined) (fun _ => JsVal.undefined)
  exact h.2.2.2.2 (fun _ => rfl)
    (fun _ => ⟨by decide, by decide, by decide, fun _ => by decide⟩) (by decide)

/-! ## External image lookup (src/api.ts, getProductImage)

`getProductImage` fetches the OpenFoodFacts product JSON, checks
`data.status === 1`, and returns
`data.product.image_front_url || data.product.image_url` when found; a
not-found status returns `null`, and every thrown exception (network
failure, parse failure, reading a field of a missing `product`) is caught
and converted to `null`. -/

/-- The `product` object of an OpenFoodFacts response; `none` in a field
models an absent (`undefined`) property. -/
structure OffProduct where
  imageFrontUrl : Option String
  imageUrl : Option String
deriving DecidableEq

/-- The parsed OpenFoodFacts response body: the numeric `status` flag
(absent when missing) and the optional `product` object. -/
structure OffResponse where
  status : Option Int
  product : Option OffProduct
deriving DecidableEq

/-- How far the fetch-and-parse pipeline got before `getProductImage`
inspects the data: the fetch can reject, the JSON parse can reject, or a
parsed body is available. -/
inductive FetchResult
  | netError
  | parseError
  | ok (data : OffResponse)
deriving DecidableEq

/-- The JavaScript value `getProductImage` resolves with: a string URL,
`null`, or `undefined` (the result of `a || b` when both image fields are
absent). -/
inductive ImageResult
  | url (s : String)
  | nullResult
  | undefResult
deriving DecidableEq

/-- Whether the result is a string URL. -/
def ImageResult.isUrl : ImageResult → Bool
  | .url _ => true
  | _ => false

/-- `data.product.image_front_url || data.product.image_url`: the front
image when truthy (a nonempty string), else the generic image field
(returned as-is, even if it is the empty string), else `undefined`. -/
def imageOf (p : OffProduct) : ImageResult :=
  match p.imageFrontUrl with
  | some s =>
    if s ≠ "" then .url s
    else
      match p.imageUrl with
      | some t => .url t
      | none => .undefResult
  | none =>
    match p.imageUrl with
    | some t => .url t
    | none => .undefResult

/-- `getProductImage` (src/api.ts lines 112-127). A missing `product`
object under `status === 1` makes the field access throw, which the
surrounding catch converts to `null`; fetch and parse rejections land in
the same catch. -/
def getProductImage : FetchResult → ImageResult
  | .netError => .nullResult
  | .parseError => .nullResult
  | .ok data =>
    if data.status = some 1 then
      match data.product with
      | none => .nullResult
      | some p => imageOf p
    else .nullResult

/-- Counterexample to claim C6 as stated: a found product (`status: 1`)
with both image fields absent makes the operation resolve with the
JavaScript value `undefined` (`undefined || undefined`), which is neither
an image URL nor the `null` not-found result the claim promises. -/
theorem C6_found_without_image_counterexample :
    getProductImage (FetchResult.ok ⟨some 1, some ⟨none, none⟩⟩) = ImageResult.undefResult ∧
    ImageResult.undefResult ≠ ImageResult.nullResult ∧
    (ImageResult.undefResult).isUrl = false := by
  decide

/-- Claim C6, amended: the image lookup never raises — every input is
mapped to a value. A found product returns the front image URL when it is
a nonempty string, else the generic image URL when that field is present,
and otherwise resolves with `undefined` (a no-image result distinct from
`null`). A not-found status (in particular `status: 0`), a missing
`product` object, a network failure, or a parse failure all yield `null`. -/
theorem C6_image_lookup_amended :
    getProductImage FetchResult.netError = ImageResult.nullResult ∧
    getProductImage FetchResult.parseError = ImageResult.nullResult ∧
    (∀ st p, st ≠ some 1 →
      getProductImage (FetchResult.ok ⟨st, p⟩) = ImageResult.nullResult) ∧
    (∀ p, getProductImage (FetchResult.ok ⟨some 0, p⟩) = ImageResult.nullResult) ∧
    getProductImage (FetchResult.ok ⟨some 1, none⟩) = ImageResult.nullResult ∧
    (∀ pr s, pr.imageFrontUrl = some s → s ≠ "" →
      getProductImage (FetchResult.ok ⟨some 1, some pr⟩) = ImageResult.url s) ∧
    (∀ pr t, (pr.imageFrontUrl = none ∨ pr.imageFrontUrl = some "") →
      pr.imageUrl = some t →
      getProductImage (FetchResult.ok ⟨some 1, some pr⟩) = ImageResult.url t) ∧
    (∀ pr, (pr.imageFrontUrl = none ∨ pr.imageFrontUrl = some "") →
      pr.imageUrl = none →
      getProductImage (FetchResult.ok ⟨some 1, some pr⟩) = ImageResult.undefResult) := by
  refine ⟨rfl, rfl, ?_, ?_, rfl, ?_, ?_, ?_⟩
  · intro st p hst
    simp [getProductImage, hst]
  · intro p
    simp [getProductImage]
  · intro pr s hfront hs
    simp [getProductImage, imageOf, hfront, hs]
  · intro pr t hfront hurl
    rcases hfront with h | h <;> simp [getProductImage, imageOf, h, hurl]
  · intro pr hfront hurl
    rcases hfront with h | h <;> simp [getProductImage, imageOf, h, hurl]

/-- Witness for the amended C6: a status-0 response yields `null`, a found
response with a front image yields that URL. -/
theorem C6_image_lookup_amended_witness :
    getProductImage (FetchResult.ok ⟨some 0, some ⟨some "front.jpg", none⟩⟩)
      = ImageResult.nullResult ∧
    getProductImage (FetchResult.ok ⟨some 1, some ⟨some "front.jpg", some "img.jpg"⟩⟩)
      = ImageResult.url "front.jpg" := by
  obtain ⟨-, -, -, hzero, -, hfront, -, -⟩ := C6_image_lookup_amended
  exact ⟨hzero (some ⟨some "front.jpg", none⟩),
    hfront ⟨some "front.jpg", some "img.jpg"⟩ "front.jpg" rfl (by decide)⟩

/-! ## Barcode scanner adapter
(src/src/app/inventory/components/BarcodeScanner.tsx)

`stopScanner` stops and clears the instance held in `html5QrCodeRef`;
`initializeScanner` always awaits `stopScanner` first, constructs a fresh
`Html5Qrcode` instance, and starts it. The model tracks the ref and the
multiset of camera sessions the library currently runs, plus the trace of
library calls made. -/

/-- State of the adapter's interaction with the scanning library:
the instance held in `html5QrCodeRef.current` (by id), the ids of sessions
whose camera is currently running, and the next fresh instance id. -/
structure ScannerWorld where
  ref : Option Nat
  active : List Nat
  nextId : Nat
deriving DecidableEq

/-- Calls the adapter makes into the scanning library. -/
inductive ScanEvent
  | stopCall (id : Nat)
  | createInstance (id : Nat)
  | startCall (id : Nat)
deriving DecidableEq

/-- `stopScanner` (BarcodeScanner.tsx lines 89-98): when an instance is
held, call its `stop()`; on success the session ends and the ref is
cleared; a rejection is only logged (the ref is then left in place, since
the clearing statement sits after the `await` inside the `try`). -/
def stopScanner (stopOk : Bool) (w : ScannerWorld) : ScannerWorld × List ScanEvent :=
  match w.ref with
  | none => (w, [])
  | some id =>
    if stopOk then
      ({ w with ref := none, active := w.active.erase id }, [.stopCall id])
    else (w, [.stopCall id])

/-- The start path of `initializeScanner` (BarcodeScanner.tsx lines
100-137 and 193-229): await `stopScanner`, construct a fresh instance into
the ref, then start it (on either platform branch); when the start call
rejects, the inner catch leaves the fresh instance unstarted. -/
def initializeScanner (stopOk startOk : Bool) (w : ScannerWorld) :
    ScannerWorld × List ScanEvent :=
  let res := stopScanner stopOk w
  let w1 := res.1
  let id := w1.nextId
  let w2 : ScannerWorld := ⟨some id, w1.active, w1.nextId + 1⟩
  if startOk then
    (⟨w2.ref, w2.active ++ [id], w2.nextId⟩,
      res.2 ++ [.createInstance id, .startCall id])
  else (w2, res.2 ++ [.createInstance id])

/-- Claim C7: starting while a session is already active first stops the
existing session and then starts the new one, leaving exactly one active
session (assuming the library honors the stop and start calls). -/
theorem C7_single_active_session (w : ScannerWorld) (id : Nat)
    (href : w.ref = some id) (hact : w.active = [id]) :
    (initializeScanner true true w).1.active = [w.nextId] ∧
    (initializeScanner true true w).1.active.length = 1 ∧
    (initializeScanner true true w).2 =
      [ScanEvent.stopCall id, ScanEvent.createInstance w.nextId,
        ScanEvent.startCall w.nextId] := by
  have hstop : stopScanner true w
      = ({ w with ref := none, active := [] }, [ScanEvent.stopCall id]) := by
    unfold stopScanner
    rw [href]
    simp [hact]
  refine ⟨?_, ?_, ?_⟩ <;> simp [initializeScanner, hstop]

/-- Witness for C7: from a state with session 5 active, re-initialization
yields exactly the fresh session 6 active, with the stop call preceding
the start call in the trace. -/
theorem C7_single_active_session_witness :
    (initializeScanner true true ⟨some 5, [5], 6⟩).1.active = [6] ∧
    (initializeScanner true true ⟨some 5, [5], 6⟩).2 =
      [ScanEvent.stopCall 5, ScanEvent.createInstance 6, ScanEvent.startCall 6] := by
  obtain ⟨h1, -, h3⟩ := C7_single_active_session ⟨some 5, [5], 6⟩ 5 rfl rfl
  exact ⟨h1, h3⟩

/-- The component state the scanner callbacks can touch: the error text,
the camera-active flag, and the library interaction state. -/
structure CompState where
  errorMsg : String
  isCameraActive : Bool
  world : ScannerWorld
deriving DecidableEq

/-- Events delivered by a running scanning session: a successful decode of
some text, or a per-frame decode failure message. -/
inductive SessionEvent
  | decodeOk (text : String)
  | decodeFrameFailure (msg : String)
deriving DecidableEq

/-- The two session callbacks registered by `initializeScanner`
(BarcodeScanner.tsx lines 147-155 and 220-228): a decode invokes
`handleBarcodeDetected`, which emits the text to the caller once; the
error callback only logs (and only when the message is not the per-frame
"No barcode or QR code found"). Returns the state, the texts emitted to
the caller, and the console lines produced. -/
def handleSessionEvent : SessionEvent → CompState → CompState × List String × List String
  | .decodeOk text, s => (s, [text], ["Barcode detected: " ++ text])
  | .decodeFrameFailure msg, s =>
    if jsIncludes msg "No barcode or QR code found" then (s, [], [])
    else (s, [], ["Scanning error: " ++ msg])

/-- Claim C8: a per-frame decode failure leaves the component state
entirely unchanged — the session stays active, no error is surfaced, the
session is not stopped — and emits no decoded value to the caller. -/
theorem C8_frame_error_inert (msg : String) (s : CompState) :
    (handleSessionEvent (SessionEvent.decodeFrameFailure msg) s).1 = s ∧
    (handleSessionEvent (SessionEvent.decodeFrameFailure msg) s).2.1 = [] := by
  unfold handleSessionEvent
  by_cases h : jsIncludes msg "No barcode or QR code found" = true <;> simp [h]

/-- The platform error the scanner initialization can throw: its `name`
and `message`. -/
structure JsError where
  errName : String
  errMessage : String
deriving DecidableEq

/-- The outer catch of `initializeScanner` (BarcodeScanner.tsx lines
246-264): classify the error by its platform `name`; an unclassified error
gets a generic message embedding the raw detail (or "Unknown error" when
the message is empty/falsy). -/
def classifyScannerError (e : JsError) : String :=
  if e.errName = "NotAllowedError" then
    "Camera access was denied. Please allow camera access in your browser settings and refresh the page."
  else if e.errName = "NotFoundError" then
    "No camera found. Please make sure your camera is connected and try again."
  else if e.errName = "NotReadableError" then
    "Camera is in use by another application. Please close other apps using the camera and try again."
  else if e.errName = "OverconstrainedError" then
    "Camera does not meet the required specifications. Please try again with different camera settings."
  else
    "Failed to initialize camera: "
      ++ (if e.errMessage = "" then "Unknown error" else e.errMessage)
      ++ ". Please check your camera permissions and try again."

/-- Where a hard initialization failure is caught: the inner catch of the
iOS start block (lines 157-163), the inner catch of the non-iOS
camera-enumeration-and-start block (lines 230-236), or the outer catch
(lines 246-264) for errors thrown outside those inner try blocks. -/
inductive InitFailurePoint
  | startIOS (e : JsError)
  | startNonIOS (e : JsError)
  | outer (e : JsError)
deriving DecidableEq

/-- The user-facing message `initializeScanner` sets for a hard
initialization failure: the two inner catches set fixed generic texts and
return; only errors reaching the outer catch are classified by name. -/
def initFailureMessage : InitFailurePoint → String
  | .startIOS _ => "Failed to initialize camera. Please try again."
  | .startNonIOS _ =>
    "Failed to initialize camera. Please check your camera permissions and try again."
  | .outer e => classifyScannerError e

/-- Counterexample to claim C9 as stated: a permission-denied error
(`NotAllowedError`) thrown while starting the camera on a non-iOS platform
is caught by the inner catch and yields the fixed generic message, not the
distinct permission-denied message the claim requires for every
permission-denied initialization failure. -/
theorem C9_inner_catch_counterexample :
    initFailureMessage (InitFailurePoint.startNonIOS ⟨"NotAllowedError", "Permission denied"⟩)
      = "Failed to initialize camera. Please check your camera permissions and try again." ∧
    initFailureMessage (InitFailurePoint.startNonIOS ⟨"NotAllowedError", "Permission denied"⟩)
      ≠ "Camera access was denied. Please allow camera access in your browser settings and refresh the page." := by
  refine ⟨rfl, ?_⟩
  decide

/-- Claim C9, amended: errors thrown during the camera-start phase are
caught by the inner handlers and produce one fixed generic message per
platform branch regardless of the error name; only failures outside those
blocks reach the name-based classifier, where permission-denied,
camera-not-found, camera-in-use and constraints-unsatisfiable each map to
a distinct user-facing message and every unclassified error maps to a
generic message that includes the raw error detail. -/
theorem C9_error_messages_amended :
    (∀ e : JsError, initFailureMessage (InitFailurePoint.startIOS e)
      = "Failed to initialize camera. Please try again.") ∧
    (∀ e : JsError, initFailureMessage (InitFailurePoint.startNonIOS e)
      = "Failed to initialize camera. Please check your camera permissions and try again.") ∧
    (∀ e : JsError, initFailureMessage (InitFailurePoint.outer e) = classifyScannerError e) ∧
    (∀ m, classifyScannerError ⟨"NotAllowedError", m⟩
      = "Camera access was denied. Please allow camera access in your browser settings and refresh the page.") ∧
    (∀ m, classifyScannerError ⟨"NotFoundError", m⟩
      = "No camera found. Please make sure your camera is connected and try again.") ∧
    (∀ m, classifyScannerError ⟨"NotReadableError", m⟩
      = "Camera is in use by another application. Please close other apps using the camera and try again.") ∧
    (∀ m, classifyScannerError ⟨"OverconstrainedError", m⟩
      = "Camera does not meet the required specifications. Please try again with different camera settings.") ∧
    (∀ m m2, classifyScannerError ⟨"NotAllowedError", m⟩ ≠ classifyScannerError ⟨"NotFoundError", m2⟩) ∧
    (∀ m m2, classifyScannerError ⟨"NotAllowedError", m⟩ ≠ classifyScannerError ⟨"NotReadableError", m2⟩) ∧
    (∀ m m2, classifyScannerError ⟨"NotAllowedError", m⟩ ≠ classifyScannerError ⟨"OverconstrainedError", m2⟩) ∧
    (∀ m m2, classifyScannerError ⟨"NotFoundError", m⟩ ≠ classifyScannerError ⟨"NotReadableError", m2⟩) ∧
    (∀ m m2, classifyScannerError ⟨"NotFoundError", m⟩ ≠ classifyScannerError ⟨"OverconstrainedError", m2⟩) ∧
    (∀ m m2, classifyScannerError ⟨"NotReadableError", m⟩ ≠ classifyScannerError ⟨"OverconstrainedError", m2⟩) ∧
    (∀ e : JsError, e.errName ≠ "NotAllowedError" → e.errName ≠ "NotFoundError" →
      e.errName ≠ "NotReadableError" → e.errName ≠ "OverconstrainedError" →
      e.errMessage ≠ "" →
      classifyScannerError e
        = "Failed to initialize camera: " ++ e.errMessage
          ++ ". Please check your camera permissions and try again.") := by
  refine ⟨fun _ => rfl, fun _ => rfl, fun _ => rfl, ?_, ?_, ?_, ?_,
    ?_, ?_, ?_, ?_, ?_, ?_, ?_⟩
  · intro m; simp [classifyScannerError]
  · intro m; simp [classifyScannerError]
  · intro m; simp [classifyScannerError]
  · intro m; simp [classifyScannerError]
  · intro m m2; simp [classifyScannerError]
  · intro m m2; simp [classifyScannerError]
  · intro m m2; simp [classifyScannerError]
  · intro m m2; simp [classifyScannerError]
  · intro m m2; simp [classifyScannerError]
  · intro m m2; simp [classifyScannerError]
  · intro e h1 h2 h3 h4 hm
    simp [classifyScannerError, h1, h2, h3, h4, hm]

/-- Witness for the amended C9: an unclassified platform error yields the
generic message carrying its raw detail, and the inner non-iOS catch
message is the fixed generic one. -/
theorem C9_error_messages_amended_witness :
    classifyScannerError ⟨"AbortError", "device lost"⟩
      = "Failed to initialize camera: device lost. Please check your camera permissions and try again." ∧
    initFailureMessage (InitFailurePoint.startNonIOS ⟨"AbortError", "device lost"⟩)
      = "Failed to initialize camera. Please check your camera permissions and try again." := by
  obtain ⟨-, hinner, -, -, -, -, -, -, -, -, -, -, -, hgen⟩ := C9_error_messages_amended
  refine ⟨?_, hinner _⟩
  have h := hgen ⟨"AbortError", "device lost"⟩ (by decide) (by decide) (by decide)
    (by decide) (by decide)
  exact h
